import Mathlib

/-!
Verification of the color-contrast dataset generator
(`data/generate_dataset.py`) of the AI-Powered Color Contrast Corrector.

The Python functions `luminance`, `contrast_ratio` and the labelling rule
are embedded over the real numbers; the 5000-row generation loop is
embedded as a list indexed by an abstract stream of random draws.
-/

namespace ContrastGen

/-- A color as three channel values, as passed to the Python functions
(`r`, `g`, `b` floats; integers 0..255 in the generator). -/
structure Color where
  r : ℝ
  g : ℝ
  b : ℝ

/-- The per-channel WCAG 2.1 gamma linearization applied inside `luminance`:
`v / 12.92 if v <= 0.03928 else ((v + 0.055) / 1.055) ** 2.4`. -/
noncomputable def gamma (v : ℝ) : ℝ :=
  if v ≤ 0.03928 then v / 12.92 else ((v + 0.055) / 1.055) ^ (2.4 : ℝ)

/-- `luminance(r, g, b)` from `generate_dataset.py`: channels divided by
255.0, gamma-linearized, then combined as
`0.2126 * a[0] + 0.7152 * a[1] + 0.0722 * a[2]`. -/
noncomputable def luminance (r g b : ℝ) : ℝ :=
  0.2126 * gamma (r / 255) + 0.7152 * gamma (g / 255) + 0.0722 * gamma (b / 255)

/-- `contrast_ratio(fg, bg)` from `generate_dataset.py`:
`(max(L1, L2) + 0.05) / (min(L1, L2) + 0.05)`. -/
noncomputable def contrast_ratio (fg bg : Color) : ℝ :=
  (max (luminance fg.r fg.g fg.b) (luminance bg.r bg.g bg.b) + 0.05) /
    (min (luminance fg.r fg.g fg.b) (luminance bg.r bg.g bg.b) + 0.05)

/-- The labelling rule of the generation loop: `1 if ratio >= 4.5 else 0`. -/
noncomputable def label (x : ℝ) : ℕ :=
  if 4.5 ≤ x then 1 else 0

/-- A valid color: every channel value lies in `[0, 255]`. -/
def IsValid (c : Color) : Prop :=
  0 ≤ c.r ∧ c.r ≤ 255 ∧ 0 ≤ c.g ∧ c.g ≤ 255 ∧ 0 ≤ c.b ∧ c.b ≤ 255

/-- Pure black, `[0, 0, 0]`. -/
def black : Color := ⟨0, 0, 0⟩

/-- Pure white, `[255, 255, 255]`. -/
def white : Color := ⟨255, 255, 255⟩

/-! ### Basic bounds on `gamma` and `luminance` -/

lemma gamma_nonneg (v : ℝ) (hv : 0 ≤ v) : 0 ≤ gamma v := by
  unfold gamma
  split
  · positivity
  · exact Real.rpow_nonneg (by positivity) _

lemma gamma_le_one (v : ℝ) (h1 : v ≤ 1) : gamma v ≤ 1 := by
  unfold gamma
  split
  · next h =>
    rw [div_le_one (by norm_num)]
    linarith
  · next h =>
    push_neg at h
    apply Real.rpow_le_one (by positivity) _ (by norm_num)
    rw [div_le_one (by norm_num)]
    linarith

lemma luminance_nonneg (r g b : ℝ) (hr : 0 ≤ r) (hg : 0 ≤ g) (hb : 0 ≤ b) :
    0 ≤ luminance r g b := by
  unfold luminance
  have h1 := gamma_nonneg (r / 255) (by positivity)
  have h2 := gamma_nonneg (g / 255) (by positivity)
  have h3 := gamma_nonneg (b / 255) (by positivity)
  linarith

lemma luminance_le_one (r g b : ℝ) (hr : r ≤ 255) (hg : g ≤ 255) (hb : b ≤ 255) :
    luminance r g b ≤ 1 := by
  unfold luminance
  have h1 := gamma_le_one (r / 255) (by linarith)
  have h2 := gamma_le_one (g / 255) (by linarith)
  have h3 := gamma_le_one (b / 255) (by linarith)
  linarith

lemma luminance_valid (c : Color) (h : IsValid c) :
    0 ≤ luminance c.r c.g c.b ∧ luminance c.r c.g c.b ≤ 1 := by
  obtain ⟨h1, h2, h3, h4, h5, h6⟩ := h
  exact ⟨luminance_nonneg _ _ _ h1 h3 h5, luminance_le_one _ _ _ h2 h4 h6⟩

/-! ### Bounds on `contrast_ratio` -/

lemma contrast_bounds (fg bg : Color) (h1 : IsValid fg) (h2 : IsValid bg) :
    1 ≤ contrast_ratio fg bg ∧ contrast_ratio fg bg ≤ 21 := by
  obtain ⟨hf0, hf1⟩ := luminance_valid fg h1
  obtain ⟨hb0, hb1⟩ := luminance_valid bg h2
  unfold contrast_ratio
  set L1 := luminance fg.r fg.g fg.b with hL1
  set L2 := luminance bg.r bg.g bg.b with hL2
  have hmin0 : 0 ≤ min L1 L2 := le_min hf0 hb0
  have hmax1 : max L1 L2 ≤ 1 := max_le hf1 hb1
  have hd : (0 : ℝ) < min L1 L2 + 0.05 := by linarith
  constructor
  · rw [le_div_iff₀ hd]
    have := min_le_max (a := L1) (b := L2)
    linarith
  · rw [div_le_iff₀ hd]
    linarith

/-! ### Endpoint evaluations -/

lemma gamma_zero : gamma 0 = 0 := by
  unfold gamma
  rw [if_pos (by norm_num)]
  norm_num

lemma gamma_one : gamma 1 = 1 := by
  unfold gamma
  rw [if_neg (by norm_num)]
  rw [show ((1 : ℝ) + 0.055) / 1.055 = 1 by norm_num, Real.one_rpow]

lemma luminance_black : luminance 0 0 0 = 0 := by
  unfold luminance
  rw [show (0 : ℝ) / 255 = 0 by norm_num, gamma_zero]
  norm_num

lemma luminance_white : luminance 255 255 255 = 1 := by
  unfold luminance
  rw [show (255 : ℝ) / 255 = 1 by norm_num, gamma_one]
  norm_num

/-! ### Monotonicity of `gamma` on integer channel values

For integer channels `0..255` the branch cut falls between channel 10
(`10/255 ≤ 0.03928`, linear branch) and channel 11 (power branch), and the
power branch at 11 already exceeds the linear branch at 10, so `gamma` is
monotone on the grid `k/255`. -/

lemma nat_le_ten_branch (n : ℕ) (h : n ≤ 10) : ((n : ℝ) / 255) ≤ 0.03928 := by
  have hn : (n : ℝ) ≤ 10 := by exact_mod_cast h
  rw [div_le_iff₀ (by norm_num : (0 : ℝ) < 255)]
  linarith

lemma nat_ge_eleven_branch (n : ℕ) (h : 11 ≤ n) : ¬ ((n : ℝ) / 255) ≤ 0.03928 := by
  have hn : (11 : ℝ) ≤ (n : ℝ) := by exact_mod_cast h
  rw [not_le, lt_div_iff₀ (by norm_num : (0 : ℝ) < 255)]
  linarith

/-- The crossover inequality: the linear branch at channel 10 is at most the
power branch at channel 11, i.e. `(10/255)/12.92 ≤ ((11/255+0.055)/1.055)^2.4`.
Proved by raising both sides to the 5th power, turning the exponent into 12. -/
lemma gamma_crossover :
    ((10 : ℝ) / 255) / 12.92 ≤ (((11 : ℝ) / 255 + 0.055) / 1.055) ^ (2.4 : ℝ) := by
  have hbase : ((11 : ℝ) / 255 + 0.055) / 1.055 = 1001 / 10761 := by norm_num
  rw [hbase]
  have ht : (0 : ℝ) ≤ 1001 / 10761 := by norm_num
  have h5 : (((1001 : ℝ) / 10761) ^ (2.4 : ℝ)) ^ (5 : ℕ) =
      ((1001 : ℝ) / 10761) ^ (12 : ℕ) := by
    rw [← Real.rpow_natCast (((1001 : ℝ) / 10761) ^ (2.4 : ℝ)) 5, ← Real.rpow_mul ht,
      ← Real.rpow_natCast ((1001 : ℝ) / 10761) 12]
    norm_num
  have hpow : (((10 : ℝ) / 255) / 12.92) ^ (5 : ℕ) ≤
      (((1001 : ℝ) / 10761) ^ (2.4 : ℝ)) ^ (5 : ℕ) := by
    rw [h5]
    norm_num
  exact le_of_pow_le_pow_left₀ (by norm_num) (Real.rpow_nonneg ht _) hpow

lemma gamma_mono_nat (x y : ℕ) (hxy : x ≤ y) :
    gamma ((x : ℝ) / 255) ≤ gamma ((y : ℝ) / 255) := by
  have hcast : (x : ℝ) ≤ (y : ℝ) := by exact_mod_cast hxy
  by_cases hx : x ≤ 10
  · by_cases hy : y ≤ 10
    · unfold gamma
      rw [if_pos (nat_le_ten_branch x hx), if_pos (nat_le_ten_branch y hy)]
      gcongr
    · push_neg at hy
      have hy11 : 11 ≤ y := hy
      have hy' : (11 : ℝ) ≤ (y : ℝ) := by exact_mod_cast hy11
      unfold gamma
      rw [if_pos (nat_le_ten_branch x hx), if_neg (nat_ge_eleven_branch y hy11)]
      calc (x : ℝ) / 255 / 12.92
          ≤ (10 : ℝ) / 255 / 12.92 := by
            have hx10 : (x : ℝ) ≤ 10 := by exact_mod_cast hx
            gcongr
        _ ≤ (((11 : ℝ) / 255 + 0.055) / 1.055) ^ (2.4 : ℝ) := gamma_crossover
        _ ≤ (((y : ℝ) / 255 + 0.055) / 1.055) ^ (2.4 : ℝ) := by
            apply Real.rpow_le_rpow (by positivity) _ (by norm_num)
            gcongr
  · push_neg at hx
    have hx11 : 11 ≤ x := hx
    have hy11 : 11 ≤ y := le_trans hx11 hxy
    unfold gamma
    rw [if_neg (nat_ge_eleven_branch x hx11), if_neg (nat_ge_eleven_branch y hy11)]
    apply Real.rpow_le_rpow (by positivity) _ (by norm_num)
    gcongr

lemma luminance_mono_r (x y g b : ℕ) (hxy : x ≤ y) :
    luminance (x : ℝ) (g : ℝ) (b : ℝ) ≤ luminance (y : ℝ) (g : ℝ) (b : ℝ) := by
  unfold luminance
  have := gamma_mono_nat x y hxy
  linarith

lemma luminance_mono_g (r x y b : ℕ) (hxy : x ≤ y) :
    luminance (r : ℝ) (x : ℝ) (b : ℝ) ≤ luminance (r : ℝ) (y : ℝ) (b : ℝ) := by
  unfold luminance
  have := gamma_mono_nat x y hxy
  linarith

lemma luminance_mono_b (r g x y : ℕ) (hxy : x ≤ y) :
    luminance (r : ℝ) (g : ℝ) (x : ℝ) ≤ luminance (r : ℝ) (g : ℝ) (y : ℝ) := by
  unfold luminance
  have := gamma_mono_nat x y hxy
  linarith

/-! ### The generation loop

Each iteration draws six integers via `random.randint(0, 255)`, computes
the ratio and label, and appends a row.  The stream of draws is abstracted
as a function `draw : ℕ → ℕ`; iteration `i` consumes draws `6*i .. 6*i+5`. -/

/-- One row of the generated table, with the eight columns
`fg_r, fg_g, fg_b, bg_r, bg_g, bg_b, contrast_ratio, label`
(the ratio column is named `cratio` here). -/
structure Row where
  fg_r : ℕ
  fg_g : ℕ
  fg_b : ℕ
  bg_r : ℕ
  bg_g : ℕ
  bg_b : ℕ
  cratio : ℝ
  lab : ℕ

/-- The body of one loop iteration: store the six drawn channels, the
contrast ratio of the two drawn colors, and its label. -/
noncomputable def mkRow (a1 a2 a3 b1 b2 b3 : ℕ) : Row :=
  { fg_r := a1, fg_g := a2, fg_b := a3, bg_r := b1, bg_g := b2, bg_b := b3,
    cratio := contrast_ratio ⟨(a1 : ℝ), (a2 : ℝ), (a3 : ℝ)⟩ ⟨(b1 : ℝ), (b2 : ℝ), (b3 : ℝ)⟩,
    lab := label (contrast_ratio ⟨(a1 : ℝ), (a2 : ℝ), (a3 : ℝ)⟩ ⟨(b1 : ℝ), (b2 : ℝ), (b3 : ℝ)⟩) }

/-- The list `rows` built by the `for _ in range(5000)` loop, over the
abstract draw stream. -/
noncomputable def rows (draw : ℕ → ℕ) : List Row :=
  (List.range 5000).map fun i =>
    mkRow (draw (6 * i)) (draw (6 * i + 1)) (draw (6 * i + 2))
      (draw (6 * i + 3)) (draw (6 * i + 4)) (draw (6 * i + 5))

lemma isValid_of_nat (n1 n2 n3 : ℕ) (h1 : n1 ≤ 255) (h2 : n2 ≤ 255) (h3 : n3 ≤ 255) :
    IsValid ⟨(n1 : ℝ), (n2 : ℝ), (n3 : ℝ)⟩ := by
  have c1 : (n1 : ℝ) ≤ 255 := by exact_mod_cast h1
  have c2 : (n2 : ℝ) ≤ 255 := by exact_mod_cast h2
  have c3 : (n3 : ℝ) ≤ 255 := by exact_mod_cast h3
  exact ⟨Nat.cast_nonneg n1, c1, Nat.cast_nonneg n2, c2, Nat.cast_nonneg n3, c3⟩

lemma label_zero_or_one (x : ℝ) : label x = 0 ∨ label x = 1 := by
  unfold label
  split
  · right; rfl
  · left; rfl

/-! ### The WCAG 2.1 reference definition, written from the specification
text, for comparison against the source's `luminance`. -/

/-- Spec-side linearization: "if v ≤ 0.03928, linearize as v / 12.92;
otherwise linearize as ((v + 0.055) / 1.055) raised to the power 2.4". -/
noncomputable def linearize_spec (v : ℝ) : ℝ :=
  if v ≤ 0.03928 then v / 12.92 else ((v + 0.055) / 1.055) ^ (2.4 : ℝ)

/-- Spec-side luminance: "normalize each channel to [0,1] by dividing by
255", linearize, then the weighted sum with weights 0.2126, 0.7152, 0.0722. -/
noncomputable def luminance_spec (r g b : ℝ) : ℝ :=
  0.2126 * linearize_spec (r / 255) + 0.7152 * linearize_spec (g / 255) +
    0.0722 * linearize_spec (b / 255)

/-! ### The claims -/

/-- Claim C1: for every color, the source's `luminance` equals the WCAG 2.1
reference definition transcribed from the specification: channels divided by
255, gamma-corrected piecewise at 0.03928, combined with weights
0.2126 / 0.7152 / 0.0722. -/
theorem C1_luminance_matches_wcag (r g b : ℝ) :
    luminance r g b = luminance_spec r g b := rfl

theorem C1_luminance_matches_wcag_witness :
    luminance 0 0 0 = luminance_spec 0 0 0 :=
  C1_luminance_matches_wcag 0 0 0

/-- Claim C2: the labelling rule assigns 1 exactly when the ratio is at
least 4.5; the boundary is inclusive (`label 4.5 = 1`) and
`label 4.499999 = 0`. -/
theorem C2_label_threshold :
    (∀ x : ℝ, label x = 1 ↔ 4.5 ≤ x) ∧ label 4.5 = 1 ∧ label 4.499999 = 0 := by
  refine ⟨fun x => ?_, ?_, ?_⟩
  · unfold label
    split
    · next h => simp [h]
    · next h => simp [h]
  · unfold label
    rw [if_pos (by norm_num)]
  · unfold label
    rw [if_neg (by norm_num)]

theorem C2_label_threshold_witness : label 5 = 1 :=
  (C2_label_threshold.1 5).mpr (by norm_num)

/-- Claim C3: for valid colors (all six channels in [0,255]) the contrast
ratio lies in [1, 21]. -/
theorem C3_contrast_in_range (fg bg : Color) (h1 : IsValid fg) (h2 : IsValid bg) :
    1 ≤ contrast_ratio fg bg ∧ contrast_ratio fg bg ≤ 21 :=
  contrast_bounds fg bg h1 h2

theorem C3_contrast_in_range_witness :
    1 ≤ contrast_ratio black black ∧ contrast_ratio black black ≤ 21 :=
  C3_contrast_in_range black black (by norm_num [IsValid, black])
    (by norm_num [IsValid, black])

/-- Claim C4: the contrast ratio is symmetric in foreground and
background. -/
theorem C4_contrast_symm (fg bg : Color) :
    contrast_ratio fg bg = contrast_ratio bg fg := by
  unfold contrast_ratio
  rw [max_comm, min_comm]

theorem C4_contrast_symm_witness :
    contrast_ratio white black = contrast_ratio black white :=
  C4_contrast_symm white black

/-- Claim C5: provided every draw of `random.randint(0, 255)` is at most
255, the loop produces exactly 5000 rows; in every row the six stored
channels are naturals bounded by 255, the ratio column equals
`contrast_ratio` of the stored colors and lies in [1, 21], and the label
column is 0 or 1 and equals the labelling rule applied to the ratio. -/
theorem C5_dataset_rows (draw : ℕ → ℕ) (hd : ∀ i, draw i ≤ 255) :
    (rows draw).length = 5000 ∧
      ∀ row ∈ rows draw,
        row.fg_r ≤ 255 ∧ row.fg_g ≤ 255 ∧ row.fg_b ≤ 255 ∧
        row.bg_r ≤ 255 ∧ row.bg_g ≤ 255 ∧ row.bg_b ≤ 255 ∧
        row.cratio = contrast_ratio ⟨(row.fg_r : ℝ), (row.fg_g : ℝ), (row.fg_b : ℝ)⟩
            ⟨(row.bg_r : ℝ), (row.bg_g : ℝ), (row.bg_b : ℝ)⟩ ∧
        1 ≤ row.cratio ∧ row.cratio ≤ 21 ∧
        (row.lab = 0 ∨ row.lab = 1) ∧ row.lab = label row.cratio := by
  constructor
  · simp [rows]
  · intro row hrow
    rw [rows, List.mem_map] at hrow
    obtain ⟨i, hi, rfl⟩ := hrow
    obtain ⟨hcr1, hcr2⟩ := contrast_bounds
      ⟨(draw (6 * i) : ℝ), (draw (6 * i + 1) : ℝ), (draw (6 * i + 2) : ℝ)⟩
      ⟨(draw (6 * i + 3) : ℝ), (draw (6 * i + 4) : ℝ), (draw (6 * i + 5) : ℝ)⟩
      (isValid_of_nat _ _ _ (hd _) (hd _) (hd _))
      (isValid_of_nat _ _ _ (hd _) (hd _) (hd _))
    exact ⟨hd _, hd _, hd _, hd _, hd _, hd _, rfl, hcr1, hcr2,
      label_zero_or_one _, rfl⟩

theorem C5_dataset_rows_witness : (rows fun _ => 0).length = 5000 :=
  (C5_dataset_rows (fun _ => 0) (fun _ => Nat.zero_le 255)).1

/-- Claim C6: luminance of any valid color lies in [0, 1], and at the
endpoints `luminance 0 0 0 = 0` and `luminance 255 255 255 = 1` exactly. -/
theorem C6_luminance_range_endpoints :
    (∀ c : Color, IsValid c → 0 ≤ luminance c.r c.g c.b ∧ luminance c.r c.g c.b ≤ 1) ∧
      luminance 0 0 0 = 0 ∧ luminance 255 255 255 = 1 :=
  ⟨fun c h => luminance_valid c h, luminance_black, luminance_white⟩

theorem C6_luminance_range_endpoints_witness :
    0 ≤ luminance black.r black.g black.b ∧ luminance black.r black.g black.b ≤ 1 :=
  C6_luminance_range_endpoints.1 black (by norm_num [IsValid, black])

/-- Claim C7: a valid color paired with itself has contrast ratio exactly
1. -/
theorem C7_contrast_self (fg : Color) (h : IsValid fg) :
    contrast_ratio fg fg = 1 := by
  obtain ⟨h0, h1⟩ := luminance_valid fg h
  unfold contrast_ratio
  rw [max_self, min_self]
  have hpos : (0 : ℝ) < luminance fg.r fg.g fg.b + 0.05 := by linarith
  exact div_self hpos.ne'

theorem C7_contrast_self_witness : contrast_ratio black black = 1 :=
  C7_contrast_self black (by norm_num [IsValid, black])

/-- Claim C8: the contrast ratio of pure white on pure black is exactly 21,
the maximum of the range. -/
theorem C8_contrast_white_black : contrast_ratio white black = 21 := by
  have h : contrast_ratio white black =
      (max (luminance 255 255 255) (luminance 0 0 0) + 0.05) /
        (min (luminance 255 255 255) (luminance 0 0 0) + 0.05) := rfl
  rw [h, luminance_white, luminance_black,
    max_eq_left (by norm_num : (0 : ℝ) ≤ 1), min_eq_right (by norm_num : (0 : ℝ) ≤ 1)]
  norm_num

/-- Claim C9: `luminance` and `contrast_ratio` are deterministic total
functions: two evaluations on equal inputs — including out-of-range channel
values — yield equal outputs.  (Purity holds by construction: both are
effect-free functions of their arguments.) -/
theorem C9_deterministic (r g b r2 g2 b2 : ℝ) (fg bg fg2 bg2 : Color)
    (h1 : r = r2) (h2 : g = g2) (h3 : b = b2) (h4 : fg = fg2) (h5 : bg = bg2) :
    luminance r g b = luminance r2 g2 b2 ∧
      contrast_ratio fg bg = contrast_ratio fg2 bg2 := by
  subst h1; subst h2; subst h3; subst h4; subst h5
  exact ⟨rfl, rfl⟩

theorem C9_deterministic_witness :
    luminance (-7) 300 999 = luminance (-7) 300 999 ∧
      contrast_ratio black white = contrast_ratio black white :=
  C9_deterministic (-7) 300 999 (-7) 300 999 black white black white
    rfl rfl rfl rfl rfl

/-- Claim C10: on valid colors with integer channels, `luminance` is
monotone non-decreasing in each channel separately. -/
theorem C10_luminance_monotone (x y r g b : ℕ) (_hx : x ≤ 255) (_hy : y ≤ 255)
    (_hr : r ≤ 255) (_hg : g ≤ 255) (_hb : b ≤ 255) (hxy : x ≤ y) :
    luminance (x : ℝ) (g : ℝ) (b : ℝ) ≤ luminance (y : ℝ) (g : ℝ) (b : ℝ) ∧
      luminance (r : ℝ) (x : ℝ) (b : ℝ) ≤ luminance (r : ℝ) (y : ℝ) (b : ℝ) ∧
      luminance (r : ℝ) (g : ℝ) (x : ℝ) ≤ luminance (r : ℝ) (g : ℝ) (y : ℝ) :=
  ⟨luminance_mono_r x y g b hxy, luminance_mono_g r x y b hxy,
    luminance_mono_b r g x y hxy⟩

theorem C10_luminance_monotone_witness :
    luminance ((0 : ℕ) : ℝ) ((0 : ℕ) : ℝ) ((0 : ℕ) : ℝ) ≤
      luminance ((255 : ℕ) : ℝ) ((0 : ℕ) : ℝ) ((0 : ℕ) : ℝ) :=
  (C10_luminance_monotone 0 255 0 0 0 (by norm_num) (by norm_num) (by norm_num)
    (by norm_num) (by norm_num) (by norm_num)).1

end ContrastGen
